import Mathlib

/-!
Verification of the `stlmeshing` triangulated-surface library.

The source represents a triangulated surface (`STL`) as an array of
triangles, each triangle being three vertices of three coordinates, plus a
parallel array of per-triangle normals and a triangle count.  The embedding
below uses exact rationals for the floating-point coordinates and models the
operations of `stl.py` and `points_inside.py` directly.
-/

/-- A 3-vector of (exact) coordinates, standing for one numpy row of three
floats. -/
structure Vec3 where
  x : ℚ
  y : ℚ
  z : ℚ
deriving DecidableEq, Repr

/-- Componentwise subtraction, as numpy `a - b` on 3-vectors. -/
def vsub (a b : Vec3) : Vec3 := ⟨a.x - b.x, a.y - b.y, a.z - b.z⟩

/-- Componentwise addition, as numpy `a + b` on 3-vectors. -/
def vadd (a b : Vec3) : Vec3 := ⟨a.x + b.x, a.y + b.y, a.z + b.z⟩

/-- Scalar multiple of a 3-vector, as numpy `c * a`. -/
def vsmul (c : ℚ) (a : Vec3) : Vec3 := ⟨c * a.x, c * a.y, c * a.z⟩

/-- `np.dot` on 3-vectors. -/
def vdot (a b : Vec3) : ℚ := a.x * b.x + a.y * b.y + a.z * b.z

/-- `np.cross` on 3-vectors. -/
def vcross (a b : Vec3) : Vec3 :=
  ⟨a.y * b.z - a.z * b.y, a.z * b.x - a.x * b.z, a.x * b.y - a.y * b.x⟩

/-- One triangle: rows 0, 1, 2 of the `(3, 3)` numpy slice `triangles[n]`. -/
structure Triangle where
  v0 : Vec3
  v1 : Vec3
  v2 : Vec3
deriving DecidableEq, Repr

/-- The `STL` object of `stl.py`: the `triangles` array (shape
`(n_triangles, 3, 3)`), the `normals` array (shape `(n_triangles, 3)`) and
the `n_triangles` field. -/
structure STL where
  triangles : List Triangle
  normals : List Vec3
  n_triangles : Nat

/-- The error taxonomy of the spec.  The source raises `RuntimeError` with a
message for the shape and dimension checks, numpy raises for a zero-size
reduction, and Python raises `TypeError` when a tuple is called; each failure
mode gets one constructor here. -/
inductive MeshError where
  | shapeMismatch
  | dimensionError
  | emptyMeshError
  | typeError
deriving DecidableEq, Repr

/-- `_ray_intersects` of `points_inside.py`: the Möller–Trumbore ray/triangle
intersection test with tolerance `tol`, returning early with `false` on a
near-parallel ray, an out-of-range `u` or `v` barycentric parameter, or a
ray parameter `t` below the tolerance. -/
def rayIntersects (triangle : Triangle) (ray origin : Vec3) (tol : ℚ) : Bool :=
  let edge1 := vsub triangle.v1 triangle.v0
  let edge2 := vsub triangle.v2 triangle.v0
  let pvec := vcross ray edge2
  let det := vdot edge1 pvec
  if |det| < tol then false
  else
    let inv_det := 1 / det
    let tvec := vsub origin triangle.v0
    let u := vdot tvec pvec * inv_det
    if u < tol ∨ u > 1 - tol then false
    else
      let qvec := vcross tvec edge1
      let v := vdot ray qvec * inv_det
      if v < tol ∨ u + v > 1 - tol then false
      else
        let t := vdot edge2 qvec * inv_det
        if t < tol then false
        else true

/-- A numpy ndarray of floats, reduced to what the classifier inspects: its
`shape` tuple (so `ndim = shape.length`) and its values, indexed by a list of
indices (one per axis). -/
structure NDArray where
  shape : List Nat
  val : List Nat → ℚ

/-- `np.min` on a list of values.  On a zero-size array numpy raises
(`zero-size array to reduction operation`), which the spec's taxonomy calls
an EmptyMeshError. -/
def npMin : List ℚ → Except MeshError ℚ
  | [] => .error .emptyMeshError
  | a :: rest => .ok (rest.foldl min a)

/-- `np.max` on a list of values; fails on a zero-size array like `npMin`. -/
def npMax : List ℚ → Except MeshError ℚ
  | [] => .error .emptyMeshError
  | a :: rest => .ok (rest.foldl max a)

/-- The numpy slice `triangles[:, :, 0]` flattened: every vertex's x
coordinate of every triangle. -/
def xCoords (ts : List Triangle) : List ℚ :=
  ts.flatMap fun t => [t.v0.x, t.v1.x, t.v2.x]

/-- The numpy slice `triangles[:, :, 1]` flattened: every vertex's y
coordinate of every triangle. -/
def yCoords (ts : List Triangle) : List ℚ :=
  ts.flatMap fun t => [t.v0.y, t.v1.y, t.v2.y]

/-- The numpy slice `triangles[:, :, 2]` flattened: every vertex's z
coordinate of every triangle. -/
def zCoords (ts : List Triangle) : List ℚ :=
  ts.flatMap fun t => [t.v0.z, t.v1.z, t.v2.z]

/-- The bounding box returned by `STL.bounding_box`:
`((x_min, x_max), (y_min, y_max), (z_min, z_max))`. -/
structure BBox where
  x_min : ℚ
  x_max : ℚ
  y_min : ℚ
  y_max : ℚ
  z_min : ℚ
  z_max : ℚ
deriving DecidableEq, Repr

/-- `STL.bounding_box` of `stl.py`: per-axis `np.min` / `np.max` over all
vertex coordinates of all triangles.  Fails (inside numpy's reduction) when
the mesh has zero triangles. -/
def bounding_box (stl : STL) : Except MeshError BBox := do
  let x_min ← npMin (xCoords stl.triangles)
  let x_max ← npMax (xCoords stl.triangles)
  let y_min ← npMin (yCoords stl.triangles)
  let y_max ← npMax (yCoords stl.triangles)
  let z_min ← npMin (zCoords stl.triangles)
  let z_max ← npMax (zCoords stl.triangles)
  return ⟨x_min, x_max, y_min, y_max, z_min, z_max⟩

/-- The intersection-counting loop of `_check_points` for one query point:
`intersection_count` after testing the ray against every triangle. -/
def countIntersections (triangles : List Triangle) (ray point : Vec3) (tol : ℚ) : Nat :=
  triangles.countP fun t => rayIntersects t ray point tol

/-- The body of `_check_points` for one grid cell.  Returns the value written
to `inside[i, j, k]` paired with the number of `_ray_intersects` invocations
performed for this cell: `(0, 0)` when the bounding-box short-circuit fires,
and otherwise the loop runs once per triangle and writes the parity of the
intersection count. -/
def checkCell (triangles : List Triangle) (bb : BBox) (ray point : Vec3) (tol : ℚ) :
    Nat × Nat :=
  if point.x < bb.x_min ∨ point.x > bb.x_max
      ∨ point.y < bb.y_min ∨ point.y > bb.y_max
      ∨ point.z < bb.z_min ∨ point.z > bb.z_max then
    (0, 0)
  else
    (countIntersections triangles ray point tol % 2, triangles.length)

/-- `_check_points` of `points_inside.py`: the triple loop over the grid
shape, filling the `inside` array cell by cell.

Modelled from the spec: the source draws `ray = np.random.rand(3)` per query
point from ambient random state, which has no shallow embedding; the spec
(§9 design notes, §8 idempotence property) re-architects this as an
injectable per-point direction source, represented here by `rayFn`. -/
def checkPoints (triangles : List Triangle) (bb : BBox) (mesh_x mesh_y mesh_z : NDArray)
    (rayFn : Nat → Nat → Nat → Vec3) (tol : ℚ) : List (List (List Nat)) :=
  match mesh_x.shape with
  | [n1, n2, n3] =>
    (List.range n1).map fun i =>
      (List.range n2).map fun j =>
        (List.range n3).map fun k =>
          (checkCell triangles bb (rayFn i j k)
            ⟨mesh_x.val [i, j, k], mesh_y.val [i, j, k], mesh_z.val [i, j, k]⟩ tol).1
  | _ => []

/-- `points_inside` of `points_inside.py`: validates that the three
coordinate grids share one shape (else `ShapeMismatch`) and are exactly
3-dimensional (else `DimensionError`), and only then computes the bounding
box and dispatches `_check_points`; an error therefore precedes all
per-point work.  The `rayFn` parameter is the injectable ray source of
`checkPoints`. -/
def points_inside (stl : STL) (mesh_x mesh_y mesh_z : NDArray)
    (rayFn : Nat → Nat → Nat → Vec3) (tol : ℚ) :
    Except MeshError (List (List (List Nat))) :=
  if mesh_x.shape ≠ mesh_y.shape ∨ mesh_x.shape ≠ mesh_z.shape then
    .error .shapeMismatch
  else if mesh_x.shape.length ≠ 3 then
    .error .dimensionError
  else do
    let bb ← bounding_box stl
    return checkPoints stl.triangles bb mesh_x mesh_y mesh_z rayFn tol

/-- Modelled from the spec: `classify` with a fixed injected ray direction,
the form the spec's idempotence property (§8) and design note (§9) call for;
the source instead draws a fresh ambient-random direction per point.  Every
point uses the single injected direction `dir`. -/
def classifyInjected (stl : STL) (mesh_x mesh_y mesh_z : NDArray) (dir : Vec3)
    (tol : ℚ) : Except MeshError (List (List (List Nat))) :=
  points_inside stl mesh_x mesh_y mesh_z (fun _ _ _ => dir) tol

/-- The squared Euclidean norm of a 3-vector, in ℚ. -/
def normSq (a : Vec3) : ℚ := a.x ^ 2 + a.y ^ 2 + a.z ^ 2

/-- `np.linalg.norm` of a 3-vector: the Euclidean magnitude, as a real. -/
noncomputable def npNorm (a : Vec3) : ℝ := Real.sqrt ((normSq a : ℚ) : ℝ)

/-- One triangle's contribution to `STL.surface_area`: half the magnitude of
the cross product of the two edge vectors `v1 - v0` and `v2 - v0`. -/
noncomputable def triangleArea (t : Triangle) : ℝ :=
  npNorm (vcross (vsub t.v1 t.v0) (vsub t.v2 t.v0)) / 2

/-- `STL.surface_area` of `stl.py`: the sum over all triangles of half the
magnitude of the cross product of two edge vectors. -/
noncomputable def surface_area (stl : STL) : ℝ :=
  (stl.triangles.map triangleArea).sum

/-- One triangle's summand in `STL.volume`, transcribed term by term from
the six products in the source (`triangles[:, r, c]` is vertex `r`,
coordinate `c`). -/
def triVol (t : Triangle) : ℚ :=
  (-t.v2.x * t.v1.y * t.v0.z) + (t.v1.x * t.v2.y * t.v0.z)
    + (t.v2.x * t.v0.y * t.v1.z) + (-t.v0.x * t.v2.y * t.v1.z)
    + (-t.v1.x * t.v0.y * t.v2.z) + (t.v0.x * t.v1.y * t.v2.z)

/-- `STL.volume` of `stl.py`: the absolute value of the summed per-triangle
contributions, divided by 6. -/
def volume (stl : STL) : ℚ :=
  |(stl.triangles.map triVol).sum| / 6

/-- The spec's per-triangle "tetrahedron-determinant contribution": the
determinant of the 3×3 matrix of vertex rows, i.e. the scalar triple product
`v0 · (v1 × v2)` — six times the signed volume of the tetrahedron spanned by
the triangle and the origin. -/
def tetraDet (t : Triangle) : ℚ := vdot t.v0 (vcross t.v1 t.v2)

/-- The mesh with every triangle's vertex winding order reversed:
`(v0, v1, v2)` becomes `(v2, v1, v0)`. -/
def reverseWinding (stl : STL) : STL :=
  { stl with triangles := stl.triangles.map fun t => ⟨t.v2, t.v1, t.v0⟩ }

/-- `STL.apply_scale` of `stl.py`: `self.triangles *= scale_factor`,
multiplying every vertex coordinate; `normals` and `n_triangles` are not
touched.  The in-place mutation is modelled as returning the post-state of
the object. -/
def apply_scale (stl : STL) (scale_factor : ℚ) : STL :=
  { stl with
    triangles := stl.triangles.map fun t =>
      ⟨vsmul scale_factor t.v0, vsmul scale_factor t.v1, vsmul scale_factor t.v2⟩ }

/-- `STL.shift_object` of `stl.py`, modelled as the post-state of the object
paired with the exception raised, if any.  The source first rejects a
non-one-dimensional offset with its dimension error; for every
one-dimensional offset the second validation evaluates `offset.shape(0)`,
calling the shape tuple as a function, so Python raises
`TypeError: tuple object is not callable` before the line
`self.triangles += offset` can ever run.  In every path the object is left
unchanged. -/
def shift_object (stl : STL) (offset : NDArray) : STL × Option MeshError :=
  if offset.shape.length ≠ 1 then (stl, some .dimensionError)
  else (stl, some .typeError)

/-! ### Helper lemmas -/

theorem foldl_min_le_init (xs : List ℚ) (a : ℚ) : xs.foldl min a ≤ a := by
  induction xs generalizing a with
  | nil => exact le_refl a
  | cons x xs ih =>
    exact le_trans (ih (min a x)) (min_le_left a x)

theorem foldl_min_le (xs : List ℚ) (a b : ℚ) (hb : b ∈ a :: xs) :
    xs.foldl min a ≤ b := by
  induction xs generalizing a with
  | nil =>
    rcases List.mem_cons.mp hb with h | h
    · exact h ▸ le_refl a
    · cases h
  | cons x xs ih =>
    rcases List.mem_cons.mp hb with h | h
    · subst h
      exact le_trans (foldl_min_le_init xs (min b x)) (min_le_left b x)
    · rcases List.mem_cons.mp h with h2 | h2
      · subst h2
        exact le_trans (foldl_min_le_init xs (min a b)) (min_le_right a b)
      · exact ih (min a x) (List.mem_cons.mpr (Or.inr h2))

theorem foldl_min_mem (xs : List ℚ) (a : ℚ) : xs.foldl min a ∈ a :: xs := by
  induction xs generalizing a with
  | nil => exact List.mem_cons.mpr (Or.inl rfl)
  | cons x xs ih =>
    rcases List.mem_cons.mp (ih (min a x)) with h | h
    · rcases min_choice a x with h1 | h1
      · exact List.mem_cons.mpr (Or.inl (h.trans h1))
      · exact List.mem_cons.mpr (Or.inr (List.mem_cons.mpr (Or.inl (h.trans h1))))
    · exact List.mem_cons.mpr (Or.inr (List.mem_cons.mpr (Or.inr h)))

theorem foldl_max_ge_init (xs : List ℚ) (a : ℚ) : a ≤ xs.foldl max a := by
  induction xs generalizing a with
  | nil => exact le_refl a
  | cons x xs ih =>
    exact le_trans (le_max_left a x) (ih (max a x))

theorem foldl_max_ge (xs : List ℚ) (a b : ℚ) (hb : b ∈ a :: xs) :
    b ≤ xs.foldl max a := by
  induction xs generalizing a with
  | nil =>
    rcases List.mem_cons.mp hb with h | h
    · exact h ▸ le_refl a
    · cases h
  | cons x xs ih =>
    rcases List.mem_cons.mp hb with h | h
    · subst h
      exact le_trans (le_max_left b x) (foldl_max_ge_init xs (max b x))
    · rcases List.mem_cons.mp h with h2 | h2
      · subst h2
        exact le_trans (le_max_right a b) (foldl_max_ge_init xs (max a b))
      · exact ih (max a x) (List.mem_cons.mpr (Or.inr h2))

theorem foldl_max_mem (xs : List ℚ) (a : ℚ) : xs.foldl max a ∈ a :: xs := by
  induction xs generalizing a with
  | nil => exact List.mem_cons.mpr (Or.inl rfl)
  | cons x xs ih =>
    rcases List.mem_cons.mp (ih (max a x)) with h | h
    · rcases max_choice a x with h1 | h1
      · exact List.mem_cons.mpr (Or.inl (h.trans h1))
      · exact List.mem_cons.mpr (Or.inr (List.mem_cons.mpr (Or.inl (h.trans h1))))
    · exact List.mem_cons.mpr (Or.inr (List.mem_cons.mpr (Or.inr h)))

theorem npMin_spec (l : List ℚ) (hl : l ≠ []) :
    ∃ m, npMin l = .ok m ∧ m ∈ l ∧ ∀ a ∈ l, m ≤ a := by
  match l with
  | [] => exact absurd rfl hl
  | a :: rest =>
    exact ⟨rest.foldl min a, rfl, foldl_min_mem rest a,
      fun b hb => foldl_min_le rest a b hb⟩

theorem npMax_spec (l : List ℚ) (hl : l ≠ []) :
    ∃ m, npMax l = .ok m ∧ m ∈ l ∧ ∀ a ∈ l, a ≤ m := by
  match l with
  | [] => exact absurd rfl hl
  | a :: rest =>
    exact ⟨rest.foldl max a, rfl, foldl_max_mem rest a,
      fun b hb => foldl_max_ge rest a b hb⟩

theorem xCoords_ne_nil (ts : List Triangle) (h : ts ≠ []) : xCoords ts ≠ [] := by
  match ts with
  | [] => exact absurd rfl h
  | t :: rest => simp [xCoords]

theorem yCoords_ne_nil (ts : List Triangle) (h : ts ≠ []) : yCoords ts ≠ [] := by
  match ts with
  | [] => exact absurd rfl h
  | t :: rest => simp [yCoords]

theorem zCoords_ne_nil (ts : List Triangle) (h : ts ≠ []) : zCoords ts ≠ [] := by
  match ts with
  | [] => exact absurd rfl h
  | t :: rest => simp [zCoords]

theorem getD_range_map {α : Type} (n : Nat) (f : Nat → α) (d : α) (i : Nat)
    (hi : i < n) : ((List.range n).map f).getD i d = f i := by
  rw [List.getD_eq_getElem?_getD, List.getElem?_map, List.getElem?_range hi]
  rfl

theorem list_sum_map_neg {α : Type} (f : α → ℚ) (l : List α) :
    (l.map fun t => -f t).sum = -(l.map f).sum := by
  induction l with
  | nil => simp
  | cons a l ih => simp [ih]; ring

theorem mod_two_eq_odd_indicator (c : Nat) :
    c % 2 = if Odd c then 1 else 0 := by
  by_cases h : Odd c
  · rw [if_pos h, Nat.odd_iff.mp h]
  · rw [if_neg h, Nat.even_iff.mp (Nat.not_odd_iff_even.mp h)]

/-! ### Concrete inputs used by the witness theorems -/

/-- A single reference triangle in the plane `z = 0`. -/
def demoTriangle : Triangle := ⟨⟨0, 0, 0⟩, ⟨2, 0, 0⟩, ⟨0, 2, 0⟩⟩

/-- A one-triangle mesh. -/
def demoSTL : STL := ⟨[demoTriangle], [⟨0, 0, 1⟩], 1⟩

/-- A mesh with zero triangles. -/
def emptySTL : STL := ⟨[], [], 0⟩

/-- A bounding box containing `demoTriangle` with some z slack. -/
def demoBB : BBox := ⟨0, 2, 0, 2, -2, 2⟩

/-- A `1 × 1 × 1` grid whose single x coordinate is `1/2`. -/
def wGridX : NDArray := ⟨[1, 1, 1], fun _ => 1/2⟩

/-- A `1 × 1 × 1` grid whose single y coordinate is `1/4`. -/
def wGridY : NDArray := ⟨[1, 1, 1], fun _ => 1/4⟩

/-- A `1 × 1 × 1` grid whose single z coordinate is `-1`. -/
def wGridZ : NDArray := ⟨[1, 1, 1], fun _ => -1⟩

/-- A `1 × 1 × 1` grid whose coordinate is `10` on every axis, outside
`demoBB`. -/
def oGrid : NDArray := ⟨[1, 1, 1], fun _ => 10⟩

/-- A fixed injected ray direction `(0, 0, 1)` for every point. -/
def wRay : Nat → Nat → Nat → Vec3 := fun _ _ _ => ⟨0, 0, 1⟩

/-- A one-dimensional offset array of exactly three components. -/
def demoOffset3 : NDArray := ⟨[3], fun _ => 1⟩

/-- A two-dimensional offset array. -/
def demoOffset2d : NDArray := ⟨[1, 3], fun _ => 1⟩

/-- A one-dimensional coordinate array of shape `[2]`. -/
def gridShape2 : NDArray := ⟨[2], fun _ => 0⟩

/-- A one-dimensional coordinate array of shape `[3]`. -/
def gridShape3 : NDArray := ⟨[3], fun _ => 0⟩

/-- A degenerate (zero-area) triangle with collinear vertices. -/
def degTriangle : Triangle := ⟨⟨0, 0, 0⟩, ⟨1, 0, 0⟩, ⟨2, 0, 0⟩⟩

/-- A second reference triangle. -/
def demoTriangle2 : Triangle := ⟨⟨1, 1, 1⟩, ⟨3, 1, 1⟩, ⟨1, 3, 5⟩⟩

/-- A two-triangle mesh. -/
def permSTL1 : STL := ⟨[demoTriangle, demoTriangle2], [], 2⟩

/-- The same two triangles in the opposite order. -/
def permSTL2 : STL := ⟨[demoTriangle2, demoTriangle], [], 2⟩

/-! ### Claim theorems -/

/-- C2: for every triangle, ray direction, ray origin and positive tolerance,
`_ray_intersects` returns true exactly when none of the Möller–Trumbore
rejection tests fire: `|det| ≥ tol` (else the near-parallel rejection),
`tol ≤ u ≤ 1 - tol`, `tol ≤ v` and `u + v ≤ 1 - tol` (else the barycentric
range rejections) and `tol ≤ t` (else the behind-the-origin rejection), with
`u`, `v`, `t` the barycentric/ray parameters computed via `inv_det = 1/det`. -/
theorem ray_intersects_moller_trumbore_cases (triangle : Triangle)
    (ray origin : Vec3) (tol : ℚ) (_htol : 0 < tol) :
    rayIntersects triangle ray origin tol = true ↔
      (let edge1 := vsub triangle.v1 triangle.v0
       let edge2 := vsub triangle.v2 triangle.v0
       let pvec := vcross ray edge2
       let det := vdot edge1 pvec
       let inv_det := 1 / det
       let tvec := vsub origin triangle.v0
       let u := vdot tvec pvec * inv_det
       let qvec := vcross tvec edge1
       let v := vdot ray qvec * inv_det
       let t := vdot edge2 qvec * inv_det
       tol ≤ |det| ∧ tol ≤ u ∧ u ≤ 1 - tol ∧ tol ≤ v ∧ u + v ≤ 1 - tol ∧ tol ≤ t) := by
  simp only [rayIntersects]
  split_ifs with h1 h2 h3 h4
  · simp only [Bool.false_eq_true, false_iff]
    rintro ⟨c1, -, -, -, -, -⟩
    exact absurd c1 (not_le.mpr h1)
  · simp only [Bool.false_eq_true, false_iff]
    rintro ⟨-, c2, c3, -, -, -⟩
    rcases h2 with h | h
    · exact absurd c2 (not_le.mpr h)
    · exact absurd c3 (not_le.mpr h)
  · simp only [Bool.false_eq_true, false_iff]
    rintro ⟨-, -, -, c4, c5, -⟩
    rcases h3 with h | h
    · exact absurd c4 (not_le.mpr h)
    · exact absurd c5 (not_le.mpr h)
  · simp only [Bool.false_eq_true, false_iff]
    rintro ⟨-, -, -, -, -, c6⟩
    exact absurd c6 (not_le.mpr h4)
  · simp only [true_iff]
    push_neg at h2 h3
    exact ⟨not_lt.mp h1, h2.1, h2.2, h3.1, h3.2, not_lt.mp h4⟩

/-- Witness for C2 at a concrete intersecting configuration. -/
theorem ray_intersects_moller_trumbore_cases_witness :
    (0 : ℚ) < 1/100
      ∧ rayIntersects demoTriangle ⟨0, 0, 1⟩ ⟨1/2, 1/4, -1⟩ (1/100) = true :=
  ⟨by norm_num,
    (ray_intersects_moller_trumbore_cases demoTriangle ⟨0, 0, 1⟩ ⟨1/2, 1/4, -1⟩
      (1/100) (by norm_num)).mpr (by norm_num [demoTriangle, vsub, vcross, vdot])⟩

/-- C5: with the injected fixed ray direction called for by the spec,
classification is a deterministic function of mesh, grid, tolerance and ray
direction, so calling it twice with the same arguments yields identical
output. -/
theorem classify_injected_deterministic (stl : STL)
    (mesh_x mesh_y mesh_z : NDArray) (dir : Vec3) (tol : ℚ) :
    classifyInjected stl mesh_x mesh_y mesh_z dir tol
      = classifyInjected stl mesh_x mesh_y mesh_z dir tol := rfl

/-- C6: `volume` returns the absolute value of the signed sum of per-triangle
tetrahedron-determinant contributions `v0 · (v1 × v2)` divided by 6, and
reversing the vertex winding order of every triangle leaves it unchanged. -/
theorem volume_tetra_sum_winding_invariant (stl : STL) :
    volume stl = |(stl.triangles.map tetraDet).sum| / 6
      ∧ volume (reverseWinding stl) = volume stl := by
  have hfun : triVol = tetraDet := funext fun t => by
    unfold triVol tetraDet vdot vcross
    ring
  constructor
  · unfold volume
    rw [hfun]
  · unfold volume reverseWinding
    simp only [List.map_map]
    have hneg : (triVol ∘ fun t : Triangle => Triangle.mk t.v2 t.v1 t.v0)
        = fun t : Triangle => -triVol t := funext fun t => by
      simp only [Function.comp]
      unfold triVol
      ring
    rw [hneg, list_sum_map_neg, abs_neg]

/-- C9 (the code's divergence from the claim): `shift_object` rejects a
non-one-dimensional offset with the dimension error, but on every
one-dimensional offset — including a valid offset of exactly 3 components —
the `offset.shape(0)` validation calls the shape tuple and raises a
`TypeError`, so the translation is never applied. -/
theorem shift_object_type_error_on_valid_offset :
    demoOffset3.shape = [3]
      ∧ (shift_object demoSTL demoOffset3).2 = some MeshError.typeError
      ∧ (shift_object demoSTL demoOffset3).1.triangles = demoSTL.triangles
      ∧ (shift_object demoSTL demoOffset2d).2 = some MeshError.dimensionError :=
  ⟨rfl, rfl, rfl, rfl⟩

/-- C10: `apply_scale` and `shift_object` leave the `normals` array and the
`n_triangles` count unchanged for every scale factor and every offset (and
`shift_object`, which always raises, also leaves `triangles` unchanged). -/
theorem transforms_preserve_normals_and_count (stl : STL) (scale_factor : ℚ)
    (offset : NDArray) :
    (apply_scale stl scale_factor).normals = stl.normals
      ∧ (apply_scale stl scale_factor).n_triangles = stl.n_triangles
      ∧ (shift_object stl offset).1.normals = stl.normals
      ∧ (shift_object stl offset).1.n_triangles = stl.n_triangles := by
  refine ⟨rfl, rfl, ?_, ?_⟩ <;>
    · unfold shift_object
      split_ifs <;> rfl

/-- C4: `points_inside` fails with the shape-mismatch error when the three
coordinate arrays do not all have the identical shape, and (shapes agreeing)
with the dimension error when the arrays are not exactly 3-dimensional; in
both cases the call returns the error before any per-point computation, so
no output grid is produced and no intersection test runs. -/
theorem points_inside_validation_errors (stl : STL)
    (mesh_x mesh_y mesh_z : NDArray) (rayFn : Nat → Nat → Nat → Vec3) (tol : ℚ) :
    (¬(mesh_x.shape = mesh_y.shape ∧ mesh_x.shape = mesh_z.shape) →
        points_inside stl mesh_x mesh_y mesh_z rayFn tol = .error .shapeMismatch)
    ∧ (mesh_x.shape = mesh_y.shape → mesh_x.shape = mesh_z.shape →
        mesh_x.shape.length ≠ 3 →
        points_inside stl mesh_x mesh_y mesh_z rayFn tol = .error .dimensionError) := by
  constructor
  · intro h
    unfold points_inside
    rw [if_pos (not_and_or.mp h)]
  · intro h1 h2 h3
    unfold points_inside
    rw [if_neg (by push_neg; exact ⟨h1, h2⟩), if_pos h3]

/-- Witness for C4: mismatched shapes give the shape error; identical
one-dimensional shapes give the dimension error. -/
theorem points_inside_validation_errors_witness :
    points_inside demoSTL gridShape2 gridShape3 gridShape2 wRay (1/100)
        = .error .shapeMismatch
      ∧ points_inside demoSTL gridShape2 gridShape2 gridShape2 wRay (1/100)
        = .error .dimensionError :=
  ⟨(points_inside_validation_errors demoSTL gridShape2 gridShape3 gridShape2
      wRay (1/100)).1 (by decide),
   (points_inside_validation_errors demoSTL gridShape2 gridShape2 gridShape2
      wRay (1/100)).2 rfl rfl (by decide)⟩

/-- C8: `bounding_box` on a mesh with zero triangles fails with the
empty-mesh error; on a mesh with at least one triangle it returns the
per-axis minimum and maximum over all vertex coordinates of all triangles. -/
theorem bounding_box_empty_error_and_minmax (stl : STL) :
    (stl.triangles = [] → bounding_box stl = .error .emptyMeshError)
    ∧ (stl.triangles ≠ [] →
        ∃ bb : BBox, bounding_box stl = .ok bb
          ∧ bb.x_min ∈ xCoords stl.triangles
          ∧ (∀ a ∈ xCoords stl.triangles, bb.x_min ≤ a)
          ∧ bb.x_max ∈ xCoords stl.triangles
          ∧ (∀ a ∈ xCoords stl.triangles, a ≤ bb.x_max)
          ∧ bb.y_min ∈ yCoords stl.triangles
          ∧ (∀ a ∈ yCoords stl.triangles, bb.y_min ≤ a)
          ∧ bb.y_max ∈ yCoords stl.triangles
          ∧ (∀ a ∈ yCoords stl.triangles, a ≤ bb.y_max)
          ∧ bb.z_min ∈ zCoords stl.triangles
          ∧ (∀ a ∈ zCoords stl.triangles, bb.z_min ≤ a)
          ∧ bb.z_max ∈ zCoords stl.triangles
          ∧ (∀ a ∈ zCoords stl.triangles, a ≤ bb.z_max)) := by
  constructor
  · intro h
    rcases stl with ⟨ts, ns, nt⟩
    simp only at h
    subst h
    rfl
  · intro h
    obtain ⟨xm, hx1, hx2, hx3⟩ := npMin_spec (xCoords stl.triangles) (xCoords_ne_nil _ h)
    obtain ⟨xM, hX1, hX2, hX3⟩ := npMax_spec (xCoords stl.triangles) (xCoords_ne_nil _ h)
    obtain ⟨ym, hy1, hy2, hy3⟩ := npMin_spec (yCoords stl.triangles) (yCoords_ne_nil _ h)
    obtain ⟨yM, hY1, hY2, hY3⟩ := npMax_spec (yCoords stl.triangles) (yCoords_ne_nil _ h)
    obtain ⟨zm, hz1, hz2, hz3⟩ := npMin_spec (zCoords stl.triangles) (zCoords_ne_nil _ h)
    obtain ⟨zM, hZ1, hZ2, hZ3⟩ := npMax_spec (zCoords stl.triangles) (zCoords_ne_nil _ h)
    refine ⟨⟨xm, xM, ym, yM, zm, zM⟩, ?_, hx2, hx3, hX2, hX3, hy2, hy3, hY2, hY3,
      hz2, hz3, hZ2, hZ3⟩
    unfold bounding_box
    rw [hx1, hX1, hy1, hY1, hz1, hZ1]
    rfl

/-- Witness for C8: the empty mesh errors; the one-triangle mesh gets its
min/max box. -/
theorem bounding_box_empty_error_and_minmax_witness :
    bounding_box emptySTL = .error .emptyMeshError
      ∧ (∃ bb : BBox, bounding_box demoSTL = .ok bb
          ∧ bb.x_min ∈ xCoords demoSTL.triangles
          ∧ (∀ a ∈ xCoords demoSTL.triangles, bb.x_min ≤ a)
          ∧ bb.x_max ∈ xCoords demoSTL.triangles
          ∧ (∀ a ∈ xCoords demoSTL.triangles, a ≤ bb.x_max)
          ∧ bb.y_min ∈ yCoords demoSTL.triangles
          ∧ (∀ a ∈ yCoords demoSTL.triangles, bb.y_min ≤ a)
          ∧ bb.y_max ∈ yCoords demoSTL.triangles
          ∧ (∀ a ∈ yCoords demoSTL.triangles, a ≤ bb.y_max)
          ∧ bb.z_min ∈ zCoords demoSTL.triangles
          ∧ (∀ a ∈ zCoords demoSTL.triangles, bb.z_min ≤ a)
          ∧ bb.z_max ∈ zCoords demoSTL.triangles
          ∧ (∀ a ∈ zCoords demoSTL.triangles, a ≤ bb.z_max)) :=
  ⟨(bounding_box_empty_error_and_minmax emptySTL).1 rfl,
   (bounding_box_empty_error_and_minmax demoSTL).2 (by decide)⟩

/-- C7: `surface_area` is invariant under permuting the triangle sequence,
and a degenerate triangle (zero cross product of its edge vectors)
contributes 0 to the sum without raising an error. -/
theorem surface_area_perm_invariant_degenerate_zero :
    (∀ s1 s2 : STL, s1.triangles.Perm s2.triangles →
        surface_area s1 = surface_area s2)
    ∧ (∀ (t : Triangle) (rest : List Triangle) (ns : List Vec3) (nt : Nat),
        vcross (vsub t.v1 t.v0) (vsub t.v2 t.v0) = ⟨0, 0, 0⟩ →
        triangleArea t = 0
          ∧ surface_area ⟨t :: rest, ns, nt⟩ = surface_area ⟨rest, ns, nt⟩) := by
  constructor
  · intro s1 s2 h
    exact List.Perm.sum_eq (h.map triangleArea)
  · intro t rest ns nt h
    have ht : triangleArea t = 0 := by
      unfold triangleArea npNorm
      rw [h]
      norm_num [normSq]
    refine ⟨ht, ?_⟩
    unfold surface_area
    simp only [List.map_cons, List.sum_cons, ht, zero_add]

/-- Witness for C7: swapping the two triangles of a mesh keeps the area;
a collinear triangle contributes nothing. -/
theorem surface_area_perm_invariant_degenerate_zero_witness :
    surface_area permSTL1 = surface_area permSTL2
      ∧ triangleArea degTriangle = 0
      ∧ surface_area ⟨[degTriangle], [], 1⟩ = surface_area ⟨[], [], 1⟩ := by
  have h := surface_area_perm_invariant_degenerate_zero
  have h2 := h.2 degTriangle [] [] 1
    (by norm_num [degTriangle, vsub, vcross, Vec3.mk.injEq])
  exact ⟨h.1 permSTL1 permSTL2 (List.Perm.swap demoTriangle2 demoTriangle []),
    h2.1, h2.2⟩

/-- C1: for a query point inside or on the bounding box, the classifier runs
the intersection test once per triangle of the mesh and writes to the output
cell 1 exactly when the number of intersecting triangles is odd, and 0
otherwise. -/
theorem check_points_parity_inside_bbox (triangles : List Triangle) (bb : BBox)
    (mesh_x mesh_y mesh_z : NDArray) (rayFn : Nat → Nat → Nat → Vec3) (tol : ℚ)
    (n1 n2 n3 i j k : Nat) (hshape : mesh_x.shape = [n1, n2, n3])
    (hi : i < n1) (hj : j < n2) (hk : k < n3)
    (hx1 : bb.x_min ≤ mesh_x.val [i, j, k]) (hx2 : mesh_x.val [i, j, k] ≤ bb.x_max)
    (hy1 : bb.y_min ≤ mesh_y.val [i, j, k]) (hy2 : mesh_y.val [i, j, k] ≤ bb.y_max)
    (hz1 : bb.z_min ≤ mesh_z.val [i, j, k]) (hz2 : mesh_z.val [i, j, k] ≤ bb.z_max) :
    ((((checkPoints triangles bb mesh_x mesh_y mesh_z rayFn tol).getD i []).getD j
        []).getD k 0
        = if Odd (countIntersections triangles (rayFn i j k)
              ⟨mesh_x.val [i, j, k], mesh_y.val [i, j, k], mesh_z.val [i, j, k]⟩ tol)
          then 1 else 0)
      ∧ (checkCell triangles bb (rayFn i j k)
          ⟨mesh_x.val [i, j, k], mesh_y.val [i, j, k], mesh_z.val [i, j, k]⟩ tol).2
        = triangles.length := by
  have hcell : checkCell triangles bb (rayFn i j k)
      ⟨mesh_x.val [i, j, k], mesh_y.val [i, j, k], mesh_z.val [i, j, k]⟩ tol
      = (countIntersections triangles (rayFn i j k)
          ⟨mesh_x.val [i, j, k], mesh_y.val [i, j, k], mesh_z.val [i, j, k]⟩ tol % 2,
        triangles.length) := by
    unfold checkCell
    rw [if_neg]
    push_neg
    exact ⟨hx1, hx2, hy1, hy2, hz1, hz2⟩
  constructor
  · simp only [checkPoints, hshape]
    rw [getD_range_map n1 _ _ i hi, getD_range_map n2 _ _ j hj,
      getD_range_map n3 _ _ k hk, hcell]
    exact mod_two_eq_odd_indicator _
  · rw [hcell]

/-- Witness for C1 at a one-cell grid whose point lies inside the box. -/
theorem check_points_parity_inside_bbox_witness :
    ((((checkPoints demoSTL.triangles demoBB wGridX wGridY wGridZ wRay
          (1/100)).getD 0 []).getD 0 []).getD 0 0
        = if Odd (countIntersections demoSTL.triangles (wRay 0 0 0)
              ⟨wGridX.val [0, 0, 0], wGridY.val [0, 0, 0], wGridZ.val [0, 0, 0]⟩
              (1/100))
          then 1 else 0)
      ∧ (checkCell demoSTL.triangles demoBB (wRay 0 0 0)
          ⟨wGridX.val [0, 0, 0], wGridY.val [0, 0, 0], wGridZ.val [0, 0, 0]⟩
          (1/100)).2
        = demoSTL.triangles.length :=
  check_points_parity_inside_bbox demoSTL.triangles demoBB wGridX wGridY wGridZ
    wRay (1/100) 1 1 1 0 0 0 rfl (by decide) (by decide) (by decide)
    (by norm_num [demoBB, wGridX]) (by norm_num [demoBB, wGridX])
    (by norm_num [demoBB, wGridY]) (by norm_num [demoBB, wGridY])
    (by norm_num [demoBB, wGridZ]) (by norm_num [demoBB, wGridZ])

/-- C3: a point strictly outside the bounding box on some axis is written 0
with zero invocations of the intersection test, and a grid whose points all
lie strictly outside the box of a non-empty mesh yields an all-zero output. -/
theorem check_points_bbox_short_circuit (triangles : List Triangle) (bb : BBox)
    (mesh_x mesh_y mesh_z : NDArray) (rayFn : Nat → Nat → Nat → Vec3) (tol : ℚ)
    (n1 n2 n3 : Nat) :
    (∀ ray point : Vec3,
        (point.x < bb.x_min ∨ point.x > bb.x_max ∨ point.y < bb.y_min
          ∨ point.y > bb.y_max ∨ point.z < bb.z_min ∨ point.z > bb.z_max) →
        checkCell triangles bb ray point tol = (0, 0))
    ∧ (mesh_x.shape = [n1, n2, n3] → triangles ≠ [] →
        (∀ i j k : Nat, i < n1 → j < n2 → k < n3 →
          (mesh_x.val [i, j, k] < bb.x_min ∨ mesh_x.val [i, j, k] > bb.x_max
            ∨ mesh_y.val [i, j, k] < bb.y_min ∨ mesh_y.val [i, j, k] > bb.y_max
            ∨ mesh_z.val [i, j, k] < bb.z_min ∨ mesh_z.val [i, j, k] > bb.z_max)) →
        ∀ plane ∈ checkPoints triangles bb mesh_x mesh_y mesh_z rayFn tol,
          ∀ row ∈ plane, ∀ cell ∈ row, cell = 0) := by
  have hsc : ∀ ray point : Vec3,
      (point.x < bb.x_min ∨ point.x > bb.x_max ∨ point.y < bb.y_min
        ∨ point.y > bb.y_max ∨ point.z < bb.z_min ∨ point.z > bb.z_max) →
      checkCell triangles bb ray point tol = (0, 0) := by
    intro ray point h
    unfold checkCell
    rw [if_pos h]
  refine ⟨hsc, ?_⟩
  intro hshape hne hout plane hplane row hrow cell hcell
  simp only [checkPoints, hshape] at hplane
  obtain ⟨i, hi, rfl⟩ := List.mem_map.mp hplane
  obtain ⟨j, hj, rfl⟩ := List.mem_map.mp hrow
  obtain ⟨k, hk, rfl⟩ := List.mem_map.mp hcell
  rw [hsc (rayFn i j k) _
    (hout i j k (List.mem_range.mp hi) (List.mem_range.mp hj) (List.mem_range.mp hk))]

/-- Witness for C3: a far-away point is short-circuited, and a one-cell grid
entirely outside the box is all zero. -/
theorem check_points_bbox_short_circuit_witness :
    checkCell demoSTL.triangles demoBB ⟨0, 0, 1⟩ ⟨10, 10, 10⟩ (1/100) = (0, 0)
      ∧ ∀ plane ∈ checkPoints demoSTL.triangles demoBB oGrid oGrid oGrid wRay
          (1/100), ∀ row ∈ plane, ∀ cell ∈ row, cell = 0 := by
  have h := check_points_bbox_short_circuit demoSTL.triangles demoBB oGrid oGrid
    oGrid wRay (1/100) 1 1 1
  exact ⟨h.1 ⟨0, 0, 1⟩ ⟨10, 10, 10⟩ (by norm_num [demoBB]),
    h.2 rfl (by decide) (fun i j k _ _ _ => by norm_num [oGrid, demoBB])⟩
